import Mathlib

/-!
# Paradigm Python SDK — request-dispatch core, shallow embedding

Embedding of `src/sdks/python/src/paradigm_sdk/client.py`:
the response interpreter (`ParadigmClient._handle_response`), the request
dispatcher (`ParadigmClient._make_request` / `_make_async_request`), the
rate limiter (`RateLimiter.wait_if_needed` / `async_wait_if_needed`),
the typed facade operations, and client construction
(`ClientConfig`, `ParadigmClient.__init__`).

Python values appearing on the wire are modelled by a small JSON type;
`response.json()` parse results are `Option Json` (`none` = JSONDecodeError).
Machine floats in the config (`timeout`) are modelled exactly as rationals,
Python ints as `Int`.  Raised exceptions are modelled by `Except` with one
error constructor per exception site.
-/

set_option autoImplicit false

namespace ParadigmSdk

/-- JSON values, as produced by `response.json()` (Python objects are
association lists; the bodies in scope never use duplicate keys). -/
inductive Json where
  | null
  | bool (b : Bool)
  | num (n : Int)
  | str (s : String)
  | arr (elems : List Json)
  | obj (fields : List (String × Json))

/-- First-match lookup in a JSON object's field list (Python `dict` access). -/
def objLookup : List (String × Json) → String → Option Json
  | [], _ => none
  | (k, v) :: rest, key => if k = key then some v else objLookup rest key

/-- Python `d.get(key, default)`.  Returns `none` when the receiver is not a
dict, modelling the `AttributeError` Python would raise on `.get`. -/
def Json.getD (j : Json) (key : String) (default : Json) : Option Json :=
  match j with
  | .obj fields => some ((objLookup fields key).getD default)
  | _ => none

/-- Python truthiness (`if not data.get("success", False)`). -/
def Json.truthy : Json → Bool
  | .null => false
  | .bool b => b
  | .num n => n != 0
  | .str s => s != ""
  | .arr elems => !elems.isEmpty
  | .obj fields => !fields.isEmpty

/-- The exceptions the dispatch core can raise, one constructor per raise
site in `client.py` (plus `attributeError` for Python's own `AttributeError`
when `.get` is applied to a non-dict, which no raise site catches). -/
inductive SdkError where
  | networkInvalidJson
  | networkRetriesExhausted (retries : Nat)
  | rateLimitExceeded
  | paradigmError (msg : Json) (code : Option Json)
  | validationError (msg : String)
  | attributeError

/-- Model of `ParadigmClient._handle_response` (client.py lines 95–113).
`parsed` is the result of `response.json()`: `none` models
`json.JSONDecodeError`.  The `code` field of `paradigmError` is `some _`
only at the `status >= 400` raise site, which passes `error_code`; the
`success == false` site passes no code, so the constructor default
(modelled `none`) applies. -/
def handle_response (status : Nat) (parsed : Option Json) : Except SdkError Json :=
  match parsed with
  | none => .error .networkInvalidJson
  | some data =>
    if status = 429 then
      .error .rateLimitExceeded
    else if 400 ≤ status then
      match data.getD "error" (.obj []) with
      | none => .error .attributeError
      | some errObj =>
        match errObj.getD "message" (.str "Unknown error"),
              errObj.getD "code" (.str "UNKNOWN") with
        | some m, some c => .error (.paradigmError m (some c))
        | _, _ => .error .attributeError
    else
      match data.getD "success" (.bool false) with
      | none => .error .attributeError
      | some s =>
        if s.truthy then
          match data.getD "data" (.obj []) with
          | none => .error .attributeError
          | some payload => .ok payload
        else
          match data.getD "error" (.obj []) with
          | none => .error .attributeError
          | some errObj =>
            match errObj.getD "message" (.str "Request failed") with
            | none => .error .attributeError
            | some m => .error (.paradigmError m none)

/-- Outcome of one HTTP attempt by the transport (`self._client.request`):
either an exception of the caught classes (`httpx.ConnectError`,
`httpx.TimeoutException`) or a completed response, carried as its status
code together with the result of parsing its body as JSON. -/
inductive TransportOutcome where
  | transportError
  | response (status : Nat) (body : Option Json)

/-- Observable trace of one `_make_request` call: how many times the rate
limiter's admission routine ran, how many HTTP attempts were issued, the
backoff sleeps performed between attempts (in seconds, in order), and the
returned payload or raised error. -/
structure DispatchTrace where
  rateLimiterCalls : Nat
  attempts : Nat
  sleeps : List Nat
  result : Except SdkError Json

/-- The retry loop body of `_make_request` (client.py lines 125–141):
`for attempt in range(retries + 1)`.  `transport i` is the outcome of the
attempt with index `i`; `fuel` is the number of loop iterations remaining
(`retries + 1 - attempt`).  Returns (attempts issued, sleeps, result).
The `fuel = 0` case models the `for` loop ending and the Python function
implicitly returning `None`; with `retries : Nat` it is unreachable
because the `attempt == retries` iteration always raises or returns. -/
def runAttempts (retries : Nat) (transport : Nat → TransportOutcome) :
    Nat → Nat → Nat × List Nat × Except SdkError Json
  | _, 0 => (0, [], .error .attributeError)
  | attempt, fuel + 1 =>
    match transport attempt with
    | .response status body => (1, [], handle_response status body)
    | .transportError =>
      if attempt = retries then
        (1, [], .error (.networkRetriesExhausted retries))
      else
        let rest := runAttempts retries transport (attempt + 1) fuel
        (rest.1 + 1, 2 ^ attempt :: rest.2.1, rest.2.2)

/-- Model of `ParadigmClient._make_request` (client.py lines 115–141): one
`self._rate_limiter.wait_if_needed()` call, then the retry loop.  The
`method`/`endpoint` arguments are carried for fidelity; the trace does not
depend on them (the transport double is indexed by attempt number). -/
def make_request (method endpoint : String) (retries : Nat)
    (transport : Nat → TransportOutcome) : DispatchTrace :=
  let run := runAttempts retries transport 0 (retries + 1)
  ⟨1, run.1, run.2.1, run.2.2⟩

/-- The retry loop body of `_make_async_request` (client.py lines 153–169);
textually parallel to `runAttempts`, with `await asyncio.sleep` in place of
`time.sleep`. -/
def runAsyncAttempts (retries : Nat) (transport : Nat → TransportOutcome) :
    Nat → Nat → Nat × List Nat × Except SdkError Json
  | _, 0 => (0, [], .error .attributeError)
  | attempt, fuel + 1 =>
    match transport attempt with
    | .response status body => (1, [], handle_response status body)
    | .transportError =>
      if attempt = retries then
        (1, [], .error (.networkRetriesExhausted retries))
      else
        let rest := runAsyncAttempts retries transport (attempt + 1) fuel
        (rest.1 + 1, 2 ^ attempt :: rest.2.1, rest.2.2)

/-- Model of `ParadigmClient._make_async_request` (client.py lines 143–169): one
`await self._rate_limiter.async_wait_if_needed()`, then the retry loop. -/
def make_async_request (method endpoint : String) (retries : Nat)
    (transport : Nat → TransportOutcome) : DispatchTrace :=
  let run := runAsyncAttempts retries transport 0 (retries + 1)
  ⟨1, run.1, run.2.1, run.2.2⟩

/-!
## Typed facade operations (client.py lines 173–352)

The validators `validate_address` / `validate_amount` and the formatter
`format_address` live in `paradigm_sdk.utils`, outside the dispatch core;
each facade model takes them as parameters, so every theorem quantifies
over the validator's behaviour.  The `Account(**data)` / `Transaction(**data)`
record reconstruction (`paradigm_sdk.types`) happens after dispatch and does
not affect the dispatch trace, which is what the facade models return. -/

/-- Model of `ParadigmClient.get_account` (lines 193–199): validate the address,
then dispatch `GET /accounts/{address}`. -/
def get_account (validate_address : String → Bool) (address : String)
    (retries : Nat) (transport : Nat → TransportOutcome) : DispatchTrace :=
  if !validate_address address then
    ⟨0, 0, [], .error (.validationError "Invalid address format")⟩
  else
    make_request "GET" ("/accounts/" ++ address) retries transport

/-- Model of `ParadigmClient.get_account_async` (lines 201–207). -/
def get_account_async (validate_address : String → Bool) (address : String)
    (retries : Nat) (transport : Nat → TransportOutcome) : DispatchTrace :=
  if !validate_address address then
    ⟨0, 0, [], .error (.validationError "Invalid address format")⟩
  else
    make_async_request "GET" ("/accounts/" ++ address) retries transport

/-- Model of `ParadigmClient.get_balance` (lines 209–214). -/
def get_balance (validate_address : String → Bool) (address : String)
    (retries : Nat) (transport : Nat → TransportOutcome) : DispatchTrace :=
  if !validate_address address then
    ⟨0, 0, [], .error (.validationError "Invalid address format")⟩
  else
    make_request "GET" ("/accounts/" ++ address ++ "/balance") retries transport

/-- Model of `ParadigmClient.get_balance_async` (lines 216–221). -/
def get_balance_async (validate_address : String → Bool) (address : String)
    (retries : Nat) (transport : Nat → TransportOutcome) : DispatchTrace :=
  if !validate_address address then
    ⟨0, 0, [], .error (.validationError "Invalid address format")⟩
  else
    make_async_request "GET" ("/accounts/" ++ address ++ "/balance") retries transport

/-- Model of `ParadigmClient.get_transaction` (lines 225–228): no validation. -/
def get_transaction (hash : String) (retries : Nat)
    (transport : Nat → TransportOutcome) : DispatchTrace :=
  make_request "GET" ("/transactions/" ++ hash) retries transport

/-- Model of `ParadigmClient.get_transaction_async` (lines 230–233). -/
def get_transaction_async (hash : String) (retries : Nat)
    (transport : Nat → TransportOutcome) : DispatchTrace :=
  make_async_request "GET" ("/transactions/" ++ hash) retries transport

/-- Model of `ParadigmClient.create_transaction` (lines 235–243): validate
`format_address(request.to)`, then `request.amount`, then dispatch.
Amounts are modelled as rationals; the validators are parameters. -/
def create_transaction (validate_address : String → Bool)
    (validate_amount : ℚ → Bool) (format_address : String → String)
    (toField : String) (amount : ℚ) (retries : Nat)
    (transport : Nat → TransportOutcome) : DispatchTrace :=
  if !validate_address (format_address toField) then
    ⟨0, 0, [], .error (.validationError "Invalid recipient address")⟩
  else if !validate_amount amount then
    ⟨0, 0, [], .error (.validationError "Invalid amount")⟩
  else
    make_request "POST" "/transactions" retries transport

/-- Model of `ParadigmClient.create_transaction_async` (lines 245–253). -/
def create_transaction_async (validate_address : String → Bool)
    (validate_amount : ℚ → Bool) (format_address : String → String)
    (toField : String) (amount : ℚ) (retries : Nat)
    (transport : Nat → TransportOutcome) : DispatchTrace :=
  if !validate_address (format_address toField) then
    ⟨0, 0, [], .error (.validationError "Invalid recipient address")⟩
  else if !validate_amount amount then
    ⟨0, 0, [], .error (.validationError "Invalid amount")⟩
  else
    make_async_request "POST" "/transactions" retries transport

/-- Model of `ParadigmClient.get_health` (lines 173–175). -/
def get_health (retries : Nat) (transport : Nat → TransportOutcome) : DispatchTrace :=
  make_request "GET" "/health" retries transport

/-- Model of `ParadigmClient.get_health_async` (lines 177–179). -/
def get_health_async (retries : Nat) (transport : Nat → TransportOutcome) : DispatchTrace :=
  make_async_request "GET" "/health" retries transport

/-- Model of `ParadigmClient.get_network_stats` (lines 181–184). -/
def get_network_stats (retries : Nat) (transport : Nat → TransportOutcome) : DispatchTrace :=
  make_request "GET" "/analytics/network-stats" retries transport

/-- Model of `ParadigmClient.get_network_stats_async` (lines 186–189). -/
def get_network_stats_async (retries : Nat) (transport : Nat → TransportOutcome) : DispatchTrace :=
  make_async_request "GET" "/analytics/network-stats" retries transport

/-- One public facade operation of `ParadigmClient`, with whether a
synchronous and an `async` variant are defined in the source. -/
structure FacadeOp where
  name : String
  hasSync : Bool
  hasAsync : Bool

/-- The full list of public domain operations defined on `ParadigmClient`
(client.py lines 173–352), in source order, with the variants each one has.
An `_async` twin exists exactly for: `get_health`, `get_network_stats`,
`get_account`, `get_balance`, `get_transaction`, `create_transaction`. -/
def clientOperations : List FacadeOp :=
  [⟨"get_health", true, true⟩,
   ⟨"get_network_stats", true, true⟩,
   ⟨"get_account", true, true⟩,
   ⟨"get_balance", true, true⟩,
   ⟨"get_transaction", true, true⟩,
   ⟨"create_transaction", true, true⟩,
   ⟨"send_signed_transaction", true, false⟩,
   ⟨"estimate_fee", true, false⟩,
   ⟨"get_transactions", true, false⟩,
   ⟨"get_latest_block", true, false⟩,
   ⟨"get_block", true, false⟩,
   ⟨"create_ml_task", true, false⟩,
   ⟨"get_ml_task", true, false⟩,
   ⟨"get_ml_tasks", true, false⟩,
   ⟨"create_proposal", true, false⟩,
   ⟨"get_proposal", true, false⟩,
   ⟨"vote", true, false⟩]

/-!
## Rate limiter (client.py lines 383–413)

Timestamps are rationals (exact model of the real-valued clock).  A call of
`wait_if_needed` reads `now = time.time()` once; any sleep it performs makes
the caller resume at `now + slept`, but the timestamp it appends to
`self.calls` is the pre-sleep `now` — exactly as in the source. -/

/-- State of a `RateLimiter` (`__init__`): quota, window and recorded call times. -/
structure RateLimiter where
  requests : Int
  window : ℚ
  calls : List ℚ

/-- The prune step: `[t for t in self.calls if now - t < self.window]`. -/
def pruneCalls (window : ℚ) (now : ℚ) (calls : List ℚ) : List ℚ :=
  calls.filter fun t => decide (now - t < window)

/-- Model of `RateLimiter.wait_if_needed` (lines 391–401), as a function of the
pre-call state and the clock reading `now`.  Returns the post-call state and
the time at which the function returns (i.e. the admission time:
`now` plus however long it slept).  The empty-`pruned` branch of the match
is reachable only when `requests ≤ 0`, where Python would raise
`IndexError` on `self.calls[0]`; with a positive quota
`len(pruned) >= requests` forces `pruned` nonempty. -/
def wait_if_needed (rl : RateLimiter) (now : ℚ) : RateLimiter × ℚ :=
  let pruned := pruneCalls rl.window now rl.calls
  let slept : ℚ :=
    match pruned with
    | [] => 0
    | oldest :: _ =>
      if rl.requests ≤ (pruned.length : Int) then
        let sleep_time := rl.window - (now - oldest)
        if 0 < sleep_time then sleep_time else 0
      else 0
  (⟨rl.requests, rl.window, pruned ++ [now]⟩, now + slept)

/-- A sequential sequence of admissions through one `RateLimiter`:
each entry of `gaps` is the (≥ 0) delay between the previous call's return
and the next invocation of `wait_if_needed`, so call `i+1` reads the clock
at (return time of call `i`) + `gaps[i+1]`.  Returns the final state and
the list of admission times (the times at which `wait_if_needed` returned
and the request was actually issued). -/
def runCalls (rl : RateLimiter) (now : ℚ) : List ℚ → RateLimiter × List ℚ
  | [] => (rl, [])
  | gap :: gaps =>
    let step := wait_if_needed rl (now + gap)
    let rest := runCalls step.1 step.2 gaps
    (rest.1, step.2 :: rest.2)

/-!
## Client construction (client.py lines 30–39 and 55–71) -/

/-- The `ClientConfig` dataclass (lines 30–39).  Defaults:
`timeout=30.0`, `retries=3`, `network="mainnet"`,
`rate_limit_requests=100`, `rate_limit_window=60`. -/
structure ClientConfig where
  base_url : String
  api_key : Option String
  timeout : ℚ
  retries : Int
  network : String
  rate_limit_requests : Int
  rate_limit_window : Int

/-- A `dict` passed to `ParadigmClient(config)`: each optional entry
overrides the dataclass default (`ClientConfig(**config)`). -/
structure ConfigDict where
  base_url : String
  api_key : Option (Option String)
  timeout : Option ℚ
  retries : Option Int
  network : Option String
  rate_limit_requests : Option Int
  rate_limit_window : Option Int

/-- Python `ClientConfig(**config)`: apply the dataclass defaults to the entries
the dict omits. -/
def ClientConfig.ofDict (d : ConfigDict) : ClientConfig :=
  ⟨d.base_url, d.api_key.getD none, d.timeout.getD 30, d.retries.getD 3,
   d.network.getD "mainnet", d.rate_limit_requests.getD 100,
   d.rate_limit_window.getD 60⟩

/-- The state `ParadigmClient.__init__` builds: the stored config and the
rate limiter constructed from `rate_limit_requests` / `rate_limit_window`
(the HTTP clients carry no state our claims mention). -/
structure ParadigmClientState where
  config : ClientConfig
  limiter : RateLimiter

/-- Model of `ParadigmClient.__init__` on a `ClientConfig` argument (lines 55–71):
the config is stored as given — no field is checked or altered. -/
def clientOfConfig (c : ClientConfig) : ParadigmClientState :=
  ⟨c, ⟨c.rate_limit_requests, (c.rate_limit_window : ℚ), []⟩⟩

/-- Model of `ParadigmClient.__init__` on a `dict` argument:
`ClientConfig(**config)` first, then the same setup. -/
def clientOfDict (d : ConfigDict) : ParadigmClientState :=
  clientOfConfig (ClientConfig.ofDict d)

/-- The configuration invariant stated by the spec (§3):
retry count ≥ 0, timeout > 0, quota > 0, window > 0. -/
def configInvariant (c : ClientConfig) : Prop :=
  0 ≤ c.retries ∧ 0 < c.timeout ∧ 0 < c.rate_limit_requests ∧
    0 < c.rate_limit_window

instance (c : ClientConfig) : Decidable (configInvariant c) := by
  unfold configInvariant; infer_instance

/-!
## Theorems

One theorem (plus, where required, a counterexample and a witness) per
claim of the specification review, in claim order.
-/

/-- Unfolding lemma: one iteration of the `_make_request` retry loop. -/
lemma runAttempts_succ (R : Nat) (t : Nat → TransportOutcome)
    (attempt fuel : Nat) :
    runAttempts R t attempt (fuel + 1) =
      match t attempt with
      | .response status body => (1, [], handle_response status body)
      | .transportError =>
        if attempt = R then
          (1, [], .error (.networkRetriesExhausted R))
        else
          let rest := runAttempts R t (attempt + 1) fuel
          (rest.1 + 1, 2 ^ attempt :: rest.2.1, rest.2.2) := rfl

/-- C1: the source rate limiter does NOT enforce the sliding-window bound
the claim states.  With quota 1 and window 10, three back-to-back calls
whose clock readings are 0, 5 and 10 are admitted (return from
`wait_if_needed`) at times 0, 10 and 15: the admissions at 10 and 15 both
lie inside the window-length interval [6, 16), i.e. 2 > quota = 1
admissions in one sliding 10-second interval.  The cause: after sleeping,
`wait_if_needed` appends the PRE-sleep `now` to `self.calls` and admits
without re-checking, so the recorded window under-counts how recently the
limiter actually admitted. -/
theorem rateLimiter_sliding_window_violated :
    (runCalls ⟨1, 10, []⟩ 0 [0, 5, 0]).2 = [0, 10, 15] ∧
    ((runCalls ⟨1, 10, []⟩ 0 [0, 5, 0]).2.filter
        (fun a => decide ((6 : ℚ) ≤ a) && decide (a < 6 + 10))).length = 2 ∧
    ¬ ((2 : Nat) ≤ 1) := by
  have htrace : (runCalls ⟨1, 10, []⟩ 0 [0, 5, 0]).2 = [0, 10, 15] := by
    norm_num [runCalls, wait_if_needed, pruneCalls, List.filter_cons,
      decide_eq_true_eq]
  refine ⟨htrace, ?_, by omega⟩
  rw [htrace]
  norm_num [List.filter_cons, decide_eq_true_eq]

/-- A run of all-transport-failure attempts issues exactly `fuel + 1`
attempts with backoff sleeps `2^attempt` for each non-final attempt. -/
lemma runAttempts_all_failures (R : Nat) (t : Nat → TransportOutcome)
    (h : ∀ i, t i = .transportError) :
    ∀ fuel attempt, attempt + fuel = R →
      runAttempts R t attempt (fuel + 1) =
        (fuel + 1, (List.range' attempt fuel).map (fun i => 2 ^ i),
          .error (.networkRetriesExhausted R)) := by
  intro fuel
  induction fuel with
  | zero =>
    intro attempt ha
    simp only [Nat.add_zero] at ha
    subst ha
    rw [runAttempts_succ, h]
    simp
  | succ k ih =>
    intro attempt ha
    have hne : attempt ≠ R := by omega
    have hrec := ih (attempt + 1) (by omega)
    rw [runAttempts_succ, h attempt]
    simp only [if_neg hne]
    rw [hrec]
    simp [List.range'_succ]

/-- C2: when every HTTP attempt fails with a connect or timeout error and
`retries = R`, `_make_request` makes exactly `R + 1` attempts, sleeps
`2^attempt_index` seconds between consecutive attempts (delays
`1, 2, 4, ..., 2^(R-1)`), and then raises `NetworkError`. -/
theorem make_request_transport_failure_exhausts_retries
    (method endpoint : String) (R : Nat) (t : Nat → TransportOutcome)
    (h : ∀ i, t i = .transportError) :
    make_request method endpoint R t =
      ⟨1, R + 1, (List.range R).map (fun i => 2 ^ i),
        .error (.networkRetriesExhausted R)⟩ := by
  have hrun := runAttempts_all_failures R t h R 0 (by omega)
  simp [make_request, hrun, List.range_eq_range']

/-- C2 witness: with `retries = 2` and an always-failing transport,
3 attempts, sleeps `[1, 2]`, and `NetworkError`. -/
theorem make_request_transport_failure_witness :
    make_request "GET" "/health" 2 (fun _ => .transportError) =
      ⟨1, 2 + 1, (List.range 2).map (fun i => 2 ^ i),
        .error (.networkRetriesExhausted 2)⟩ :=
  make_request_transport_failure_exhausts_retries "GET" "/health" 2 _ (fun _ => rfl)

/-- C3 counterexample: a call that performs 2 attempts (first attempt a
transport failure, second a 200 response) runs the rate limiter's
admission routine only once, not twice — `wait_if_needed` is called before
the retry loop, not before every attempt, refuting the claim at this
concrete input. -/
theorem dispatcher_single_rate_limit_acquire_cex :
    (make_request "GET" "/health" 3
        (fun i => if i = 0 then .transportError
          else .response 200 (some (.obj [("success", .bool true)])))).attempts = 2 ∧
    (make_request "GET" "/health" 3
        (fun i => if i = 0 then .transportError
          else .response 200 (some (.obj [("success", .bool true)])))).rateLimiterCalls = 1 :=
  ⟨rfl, rfl⟩

/-- C3 amended: `_make_request` and `_make_async_request` run the rate
limiter's admission routine exactly once per call — before the first
attempt — regardless of how many attempts the retry loop performs. -/
theorem make_request_acquires_rate_limiter_once
    (method endpoint : String) (R : Nat) (t : Nat → TransportOutcome) :
    (make_request method endpoint R t).rateLimiterCalls = 1 ∧
    (make_async_request method endpoint R t).rateLimiterCalls = 1 :=
  ⟨rfl, rfl⟩

/-- C3 amended, witness at a concrete input. -/
theorem make_request_acquires_rate_limiter_once_witness :
    (make_request "GET" "/health" 0 (fun _ => .transportError)).rateLimiterCalls = 1 ∧
    (make_async_request "GET" "/health" 0 (fun _ => .transportError)).rateLimiterCalls = 1 :=
  make_request_acquires_rate_limiter_once "GET" "/health" 0 (fun _ => .transportError)

/-- C4 counterexample: a 429 response whose body is NOT parseable JSON
(e.g. an empty body) raises `NetworkError("Invalid JSON response")`, not
`RateLimitError` — `response.json()` runs before the status check. -/
theorem handle_response_429_unparseable_body_cex :
    handle_response 429 none = .error .networkInvalidJson ∧
    handle_response 429 none ≠ .error .rateLimitExceeded := by
  refine ⟨rfl, ?_⟩
  intro h
  rw [handle_response] at h
  injection h with h2
  exact SdkError.noConfusion h2

/-- C4 amended: for every 429 response whose body parses as JSON,
`_handle_response` raises `RateLimitError` regardless of the body's
content; an unparseable (including empty) body raises `NetworkError`
instead. -/
theorem handle_response_429_parsed_always_rateLimit (body : Json) :
    handle_response 429 (some body) = .error .rateLimitExceeded := rfl

/-- C4 amended, witness at a concrete input. -/
theorem handle_response_429_parsed_witness :
    handle_response 429 (some (.obj [])) = .error .rateLimitExceeded :=
  handle_response_429_parsed_always_rateLimit (.obj [])

/-- C5 counterexample: for status 200 with body
`{"success": false, "error": {"message": "x", "code": "Y"}}`, the raised
`ParadigmError` does NOT carry code `"Y"`: the `success == false` raise
site passes only the message, so the code defaults. -/
theorem handle_response_success_false_drops_code_cex :
    handle_response 200 (some (.obj [("success", .bool false),
        ("error", .obj [("message", .str "x"), ("code", .str "Y")])])) =
      .error (.paradigmError (.str "x") none) ∧
    handle_response 200 (some (.obj [("success", .bool false),
        ("error", .obj [("message", .str "x"), ("code", .str "Y")])])) ≠
      .error (.paradigmError (.str "x") (some (.str "Y"))) := by
  refine ⟨rfl, ?_⟩
  intro h
  rw [show handle_response 200 (some (.obj [("success", .bool false),
        ("error", .obj [("message", .str "x"), ("code", .str "Y")])])) =
      .error (.paradigmError (.str "x") none) from rfl] at h
  injection h with h2
  injection h2 with h3 h4
  exact Option.noConfusion h4

/-- C5 amended: for every status-200 response with envelope
`{"success": false, "error": {"message": m, "code": c}}`, the dispatcher
makes exactly one attempt (no retry — `ParadigmError` is not a caught
exception class) and raises `ParadigmError` with message `m`; the
envelope's code is dropped (constructor default). -/
theorem handle_response_success_false_message_no_retry
    (m c : String) (method endpoint : String) (R : Nat) :
    make_request method endpoint R (fun _ => .response 200
        (some (.obj [("success", .bool false),
          ("error", .obj [("message", .str m), ("code", .str c)])]))) =
      ⟨1, 1, [], .error (.paradigmError (.str m) none)⟩ := by
  simp [make_request, runAttempts_succ, handle_response, Json.getD, objLookup, Json.truthy]

/-- C5 amended, witness at a concrete input. -/
theorem handle_response_success_false_message_witness :
    make_request "POST" "/transactions" 3 (fun _ => .response 200
        (some (.obj [("success", .bool false),
          ("error", .obj [("message", .str "x"), ("code", .str "Y")])]))) =
      ⟨1, 1, [], .error (.paradigmError (.str "x") none)⟩ :=
  handle_response_success_false_message_no_retry "x" "Y" "POST" "/transactions" 3

/-- C6: every address-validated facade operation called with an address its
validator rejects raises `ValidationError` before dispatch: zero HTTP
attempts, zero rate-limiter admissions.  Stated for `get_account`,
`get_balance` and `create_transaction`, quantified over the (external)
validator functions. -/
theorem facade_invalid_input_no_dispatch
    (validate_address : String → Bool) (validate_amount : ℚ → Bool)
    (format_address : String → String) (address toField : String) (amount : ℚ)
    (R : Nat) (t : Nat → TransportOutcome)
    (ha : validate_address address = false)
    (hto : validate_address (format_address toField) = false) :
    get_account validate_address address R t =
      ⟨0, 0, [], .error (.validationError "Invalid address format")⟩ ∧
    get_balance validate_address address R t =
      ⟨0, 0, [], .error (.validationError "Invalid address format")⟩ ∧
    create_transaction validate_address validate_amount format_address
        toField amount R t =
      ⟨0, 0, [], .error (.validationError "Invalid recipient address")⟩ := by
  refine ⟨?_, ?_, ?_⟩ <;> simp [get_account, get_balance, create_transaction, ha, hto]

/-- C6 witness: a rejecting validator and the empty address. -/
theorem facade_invalid_input_no_dispatch_witness :
    get_account (fun _ => false) "" 3 (fun _ => .transportError) =
      ⟨0, 0, [], .error (.validationError "Invalid address format")⟩ ∧
    get_balance (fun _ => false) "" 3 (fun _ => .transportError) =
      ⟨0, 0, [], .error (.validationError "Invalid address format")⟩ ∧
    create_transaction (fun _ => false) (fun _ => true) id "" 1 3
        (fun _ => .transportError) =
      ⟨0, 0, [], .error (.validationError "Invalid recipient address")⟩ :=
  facade_invalid_input_no_dispatch (fun _ => false) (fun _ => true) id "" "" 1 3
    (fun _ => .transportError) rfl rfl

/-- C7: for every response with status < 400 whose parsed body is an
object whose `success` field is `true` and whose `data` field is present
with value `v`, `_handle_response` returns exactly `v` (no mutation). -/
theorem handle_response_success_returns_data
    (status : Nat) (fields : List (String × Json)) (v : Json)
    (hstatus : status < 400)
    (hsuccess : objLookup fields "success" = some (.bool true))
    (hdata : objLookup fields "data" = some v) :
    handle_response status (some (.obj fields)) = .ok v := by
  have h1 : ¬ status = 429 := by omega
  have h2 : ¬ 400 ≤ status := by omega
  simp [handle_response, Json.getD, h1, h2, hsuccess, hdata, Json.truthy]

/-- C7 witness: status 200, `data` field `7`. -/
theorem handle_response_success_returns_data_witness :
    handle_response 200 (some (.obj [("success", .bool true),
      ("data", .num 7)])) = .ok (.num 7) :=
  handle_response_success_returns_data 200
    [("success", .bool true), ("data", .num 7)] (.num 7) (by omega) rfl rfl

/-- C8 counterexample: `send_signed_transaction` is a synchronous facade
operation with no async twin in the source (as are 10 further operations:
`estimate_fee`, the paginated/block queries, the ML-task operations, and
the governance operations), refuting the claim that every synchronous
operation has one. -/
theorem facade_missing_async_twin_cex :
    clientOperations.find? (fun op => op.name == "send_signed_transaction") =
      some ⟨"send_signed_transaction", true, false⟩ ∧
    (clientOperations.filter (fun op => op.hasSync && !op.hasAsync)).length = 11 :=
  ⟨rfl, rfl⟩

/-- The async retry loop is the same function as the synchronous one. -/
lemma runAsyncAttempts_eq_runAttempts (R : Nat) (t : Nat → TransportOutcome) :
    ∀ fuel attempt, runAsyncAttempts R t attempt fuel = runAttempts R t attempt fuel := by
  intro fuel
  induction fuel with
  | zero => intro attempt; rfl
  | succ k ih =>
    intro attempt
    rw [runAttempts_succ]
    rw [show runAsyncAttempts R t attempt (k + 1) =
      (match t attempt with
      | .response status body => (1, [], handle_response status body)
      | .transportError =>
        if attempt = R then
          (1, [], .error (.networkRetriesExhausted R))
        else
          let rest := runAsyncAttempts R t (attempt + 1) k
          (rest.1 + 1, 2 ^ attempt :: rest.2.1, rest.2.2)) from rfl]
    cases t attempt with
    | response status body => rfl
    | transportError =>
      by_cases hR : attempt = R
      · simp [hR]
      · simp [hR, ih]

/-- The async dispatcher equals the synchronous one as a function. -/
lemma make_async_request_eq : make_async_request = make_request := by
  funext method endpoint R t
  simp [make_async_request, make_request, runAsyncAttempts_eq_runAttempts]

/-- C8 amended: an async twin exists exactly for `get_health`,
`get_network_stats`, `get_account`, `get_balance`, `get_transaction` and
`create_transaction` — the remaining 11 synchronous operations have none —
and each existing twin has semantics identical to its synchronous
counterpart (equal as functions of validators, inputs, retry budget and
transport). -/
theorem async_twins_match_sync :
    ((clientOperations.filter (fun op => op.hasAsync)).map FacadeOp.name =
      ["get_health", "get_network_stats", "get_account", "get_balance",
       "get_transaction", "create_transaction"]) ∧
    make_async_request = make_request ∧
    get_account_async = get_account ∧
    get_balance_async = get_balance ∧
    get_transaction_async = get_transaction ∧
    create_transaction_async = create_transaction ∧
    get_health_async = get_health ∧
    get_network_stats_async = get_network_stats := by
  refine ⟨rfl, make_async_request_eq, ?_, ?_, ?_, ?_, ?_, ?_⟩
  · funext v a R t
    simp [get_account_async, get_account, make_async_request_eq]
  · funext v a R t
    simp [get_balance_async, get_balance, make_async_request_eq]
  · funext h R t
    simp [get_transaction_async, get_transaction, make_async_request_eq]
  · funext v va f toF amt R t
    simp [create_transaction_async, create_transaction, make_async_request_eq]
  · funext R t
    simp [get_health_async, get_health, make_async_request_eq]
  · funext R t
    simp [get_network_stats_async, get_network_stats, make_async_request_eq]

/-- C9 counterexample: `ParadigmClient.__init__` performs no validation —
a config with `retries = -1` is stored verbatim, producing a client that
violates the claimed invariant `retry count ≥ 0`. -/
theorem client_construction_accepts_invalid_config_cex :
    (clientOfConfig ⟨"http://node", none, 30, -1, "mainnet", 100, 60⟩).config.retries = -1 ∧
    ¬ configInvariant
        (clientOfConfig ⟨"http://node", none, 30, -1, "mainnet", 100, 60⟩).config := by
  refine ⟨rfl, ?_⟩
  intro h
  exact absurd h.1 (by norm_num [clientOfConfig])

/-- C9 amended: construction copies the supplied configuration verbatim
(no field is checked or altered); a client built from a config that
satisfies the bounds satisfies them, and the dataclass defaults (applied
to a dict that omits `timeout`, `retries`, `rate_limit_requests` and
`rate_limit_window`) satisfy them — but nothing rejects out-of-range
values. -/
theorem client_construction_preserves_config
    (c : ClientConfig) (d : ConfigDict)
    (hc : configInvariant c)
    (ht : d.timeout = none) (hr : d.retries = none)
    (hq : d.rate_limit_requests = none) (hw : d.rate_limit_window = none) :
    (clientOfConfig c).config = c ∧
    configInvariant (clientOfConfig c).config ∧
    configInvariant (clientOfDict d).config := by
  refine ⟨rfl, hc, ?_⟩
  simp [clientOfDict, clientOfConfig, ClientConfig.ofDict, configInvariant,
    ht, hr, hq, hw]

/-- C9 amended, witness: an explicit in-range config and an all-default dict. -/
theorem client_construction_preserves_config_witness :
    (clientOfConfig ⟨"http://node", none, 30, 3, "mainnet", 100, 60⟩).config =
      ⟨"http://node", none, 30, 3, "mainnet", 100, 60⟩ ∧
    configInvariant
      (clientOfConfig ⟨"http://node", none, 30, 3, "mainnet", 100, 60⟩).config ∧
    configInvariant
      (clientOfDict ⟨"http://node", none, none, none, none, none, none⟩).config :=
  client_construction_preserves_config
    ⟨"http://node", none, 30, 3, "mainnet", 100, 60⟩
    ⟨"http://node", none, none, none, none, none, none⟩
    (by refine ⟨by norm_num, by norm_num, by norm_num, by norm_num⟩) rfl rfl rfl rfl

/-- C10: for every response with status < 400 whose parsed body is an
object whose `success` field is `true` and which has NO `data` field,
`_handle_response` returns the empty mapping `{}` (the `.get` default)
rather than raising. -/
theorem handle_response_success_missing_data_empty
    (status : Nat) (fields : List (String × Json))
    (hstatus : status < 400)
    (hsuccess : objLookup fields "success" = some (.bool true))
    (hdata : objLookup fields "data" = none) :
    handle_response status (some (.obj fields)) = .ok (.obj []) := by
  have h1 : ¬ status = 429 := by omega
  have h2 : ¬ 400 ≤ status := by omega
  simp [handle_response, Json.getD, h1, h2, hsuccess, hdata, Json.truthy]

/-- C10 witness: status 200, envelope with only a `success` field. -/
theorem handle_response_success_missing_data_witness :
    handle_response 200 (some (.obj [("success", .bool true)])) =
      .ok (.obj []) :=
  handle_response_success_missing_data_empty 200 [("success", .bool true)]
    (by omega) rfl rfl

end ParadigmSdk
